import Mathlib

/-!
Verification development for the AIYODHA financial firewall.

Server side (src/policy_engine/server.py): the Policy Engine's heartbeat,
admin kill-switch and distributed-lock logic over the ledger store.
Client side (src/aiyodha_sdk/wrapper.py): the local guard (rate limiter,
circuit breaker, kill-switch cache), the heartbeat dispatcher and the
zombie heuristic.

Money values in the source are Python floats (IEEE-754 binary64); MockRedis
stores them through repr round-trips, which are exact.  We therefore model a
float as the exact rational it denotes, and each arithmetic operation as the
exact rational operation followed by round-to-nearest-even at 53 significant
bits (roundFP below).  All values arising here lie well inside the normal
range of binary64, so overflow and subnormal handling are irrelevant and
omitted.  The model was cross-checked value-for-value against the CPython
trajectory of the seeded agent (2000 deductions of 0.05 from 100.0).
-/

namespace Aiyodha

/-- Equality of rationals decided through the canonical numerator/denominator
representation (kernel-friendly replacement for the derived instance). -/
instance ratDecEqFast : DecidableEq ℚ := fun a b =>
  if h : a.num = b.num ∧ a.den = b.den then
    .isTrue (by rcases a with ⟨n1, d1⟩; rcases b with ⟨n2, d2⟩; simp_all)
  else
    .isFalse (fun he => h (by subst he; exact ⟨rfl, rfl⟩))

/-- Floor of log base 2, by structural recursion on a fuel bound (the first
argument); fuel n suffices for input n. -/
def lg : ℕ → ℕ → ℕ
  | 0, _ => 0
  | f + 1, n => if 2 ≤ n then lg f (n / 2) + 1 else 0

/-- Floor of log base 2 of a positive natural number. -/
def natLog2 (n : ℕ) : ℕ := lg n n

/-- Decide whether the positive rational n/d is at least 2^k. -/
def ratGePow2 (n d : ℕ) (k : ℤ) : Bool :=
  if 0 ≤ k then decide (d * 2 ^ k.toNat ≤ n) else decide (d ≤ n * 2 ^ (-k).toNat)

/-- Round the positive rational n/d (n, d ≥ 1) to the nearest binary64 value
(53 significant bits, ties to even), returned as the exact rational it
denotes.  The exponent e satisfies 2^e ≤ n/d < 2^(e+1); the significand m is
the nearest-even integer rounding of (n/d)·2^(52-e). -/
def roundPosAux (n d : ℕ) : ℚ :=
  let e0 : ℤ := (natLog2 n : ℤ) - (natLog2 d : ℤ)
  let e : ℤ :=
    if ratGePow2 n d (e0 + 1) then e0 + 1
    else if ratGePow2 n d e0 then e0
    else e0 - 1
  let num : ℕ := if 0 ≤ 52 - e then n * 2 ^ (52 - e).toNat else n
  let den : ℕ := if 0 ≤ 52 - e then d else d * 2 ^ (e - 52).toNat
  let m0 := num / den
  let r := num % den
  let m : ℕ :=
    if den < 2 * r then m0 + 1
    else if 2 * r < den then m0
    else if m0 % 2 = 0 then m0
    else m0 + 1
  if 0 ≤ e - 52 then mkRat (Int.ofNat (m * 2 ^ (e - 52).toNat)) 1
  else mkRat (Int.ofNat m) (2 ^ (52 - e).toNat)

/-- IEEE-754 binary64 round-to-nearest-even, on exact rationals. -/
def roundFP (q : ℚ) : ℚ :=
  if q.num = 0 then 0
  else if 0 < q.num then roundPosAux q.num.toNat q.den
  else -roundPosAux (-q.num).toNat q.den

/-- Python float addition: exact sum, then binary64 rounding.  This is the
semantics of the store's incrbyfloat as used by the engine (stored value
parsed back from its exact repr, plus the increment, stored rounded); a
Python subtraction x - y is fadd x (-y). -/
def fadd (a b : ℚ) : ℚ := roundFP (a + b)

/-- The binary64 value written 0.05 (what JSON parsing yields for the
default heartbeat cost 0.05). -/
def d005 : ℚ := 3602879701896397 / 72057594037927936

/-! ## Policy Engine ledger state (src/policy_engine/server.py)

One record per agent (each claim concerns a single agent), mirroring the
store keys the engine touches: agent:<id>:balance (none when the agent was
never seeded), agent:<id>:spent, agent:<id>:killed (the string "true" or
"false"), and the global counters stats:breaches and stats:zombies (absent
keys read as 0 and INCR of an absent key yields 1, so integer counters model
both stored and absent states). -/

structure Ledger where
  balance : Option ℚ
  spent : ℚ
  killed : Option String
  breaches : ℤ
  zombies : ℤ
deriving DecidableEq

/-- Outcome of POST /heartbeat: HTTP 200 with the remaining balance, or one
of the four HTTPException exits (404, and the three reasons for 402). -/
inductive HbResult where
  | ok (remaining : ℚ)
  | notFound
  | killed
  | zombie
  | insufficient
deriving DecidableEq

/-- The critical section of the heartbeat endpoint (the body of its
async-with block): agent-existence check, kill-switch check, zombie check,
budget check, then the rounded deduction, in source order. -/
def heartbeat (st : Ledger) (cost : ℚ) (isZombie : Bool) : HbResult × Ledger :=
  match st.balance with
  | none => (.notFound, st)
  | some bal =>
    if st.killed == some "true" then
      (.killed, { st with breaches := st.breaches + 1 })
    else if isZombie then
      (.zombie, { st with zombies := st.zombies + 1, killed := some "true" })
    else if bal < cost then
      (.insufficient, { st with breaches := st.breaches + 1 })
    else
      let nb := fadd bal (-cost)
      (.ok nb, { st with balance := some nb, spent := fadd st.spent cost })

/-- Outcome of POST /admin/kill_switch. -/
inductive KillResult where
  | killed
  | notFound
deriving DecidableEq

/-- The critical section of the admin kill-switch endpoint: existence check
on the balance key, then unconditionally set the killed flag. -/
def killSwitch (st : Ledger) : KillResult × Ledger :=
  match st.balance with
  | none => (.notFound, st)
  | some _ => (.killed, { st with killed := some "true" })

/-- A fresh agent record with the given balance: spent 0.0, killed "false",
global counters at 0. -/
def agent0 (b : ℚ) : Ledger :=
  { balance := some b, spent := 0, killed := some "false", breaches := 0, zombies := 0 }

/-- The ledger record seeded at first startup: balance 100.0, spent 0.0,
killed "false". -/
def seeded : Ledger := agent0 100

/-- True exactly on the success outcome of a heartbeat. -/
def okB : HbResult → Bool
  | .ok _ => true
  | _ => false

/-- One heartbeat of cost 0.05 (is_zombie false), additionally tracking
whether every heartbeat so far returned ok. -/
def hbStep (p : Ledger × Bool) : Ledger × Bool :=
  let q := heartbeat p.1 d005 false
  (q.2, p.2 && okB q.1)

/-- n further heartbeats of cost 0.05 starting from an arbitrary point. -/
def runFrom (p : Ledger × Bool) : ℕ → Ledger × Bool
  | 0 => p
  | n + 1 => hbStep (runFrom p n)

/-- n heartbeats of cost 0.05 against the seeded record. -/
def hbRun (n : ℕ) : Ledger × Bool := runFrom (seeded, true) n

/-- n heartbeats of an arbitrary fixed cost (is_zombie false), keeping only
the ledger: the serialized execution of n concurrent heartbeats, in the
order the per-agent Distributed Lock grants them. -/
def hbIterC (cost : ℚ) (st : Ledger) : ℕ → Ledger
  | 0 => st
  | n + 1 => (heartbeat (hbIterC cost st n) cost false).2

/-! ## Distributed Lock (src/policy_engine/server.py, class DistributedLock)

Acquisition spins on setnx of the lock:<resource> key.  The k-th attempt
(k from 0) happens 10k ms after entry, since each failed attempt sleeps
10 ms; the post-attempt check elapsed > 5 s therefore fires exactly when
k > 500, so attempts 0..501 are made and then ServiceBusy is raised.  The
argument free tells whether the store's setnx succeeds at attempt k (the key
is absent, i.e. no other holder). -/

def spinLoop (free : ℕ → Bool) : ℕ → ℕ → Option ℕ
  | 0, _ => none
  | fuel + 1, k =>
    if free k then some k
    else if 500 < k then none
    else spinLoop free fuel (k + 1)

/-- Lock acquisition: the attempt index that succeeded, or none for the
ServiceBusy (HTTP 503) timeout. -/
def spinAcquire (free : ℕ → Bool) : Option ℕ := spinLoop free 502 0

/-- Observable trace of one heartbeat request including its lock protocol:
the HTTP outcome (none models the 503 ServiceBusy raised during
acquisition), the final ledger, whether expire was set on the lock key
after acquisition, and how many times the lock key was deleted. -/
structure LockTrace where
  result : Option HbResult
  ledger : Ledger
  expirySet : Bool
  deletes : ℕ
deriving DecidableEq

/-- The full heartbeat endpoint: acquire the per-agent lock (spinning on
setnx, expiry set on success), run the critical section, and release (the
aexit of the async-with block deletes the lock key; it runs on the normal
exit and on every HTTPException exit alike, and only if the lock was
acquired). -/
def runHeartbeat (free : ℕ → Bool) (st : Ledger) (cost : ℚ) (isZombie : Bool) : LockTrace :=
  match spinAcquire free with
  | none => { result := none, ledger := st, expirySet := false, deletes := 0 }
  | some _ =>
    let q := heartbeat st cost isZombie
    { result := some q.1, ledger := q.2, expirySet := true, deletes := 1 }

/-! ## MockRedis fallback (src/policy_engine/server.py, class MockRedis)

MockRedis implements get, set, setnx, delete, decrby, incrbyfloat, expire
and close — but not incr.  The heartbeat endpoint calls redis_client.incr
on its killed, zombie and insufficient-budget paths, so under the fallback
store those paths raise AttributeError before any HTTPException is raised
or any flag is written: FastAPI answers HTTP 500, no counter moves, and on
the zombie path the kill flag is never set. -/

/-- The method names the MockRedis class defines. -/
def mockRedisMethods : List String :=
  ["get", "set", "setnx", "delete", "decrby", "incrbyfloat", "expire", "close"]

/-- The store methods invoked while serving POST /heartbeat (lock acquire,
critical section, lock release). -/
def heartbeatStoreMethods : List String :=
  ["setnx", "expire", "get", "incr", "set", "incrbyfloat", "delete"]

/-- The heartbeat critical section as executed against MockRedis: identical
to heartbeat except that every incr call raises AttributeError (modelled as
result none) with the ledger left as it was at that point. -/
def heartbeatMock (st : Ledger) (cost : ℚ) (isZombie : Bool) : Option HbResult × Ledger :=
  match st.balance with
  | none => (some .notFound, st)
  | some bal =>
    if st.killed == some "true" then
      (none, st)
    else if isZombie then
      (none, st)
    else if bal < cost then
      (none, st)
    else
      let nb := fadd bal (-cost)
      (some (.ok nb), { st with balance := some nb, spent := fadd st.spent cost })

/-! ## Local Guard and Heartbeat Dispatcher (src/aiyodha_sdk/wrapper.py) -/

/-- Client-side per-agent state of AiyodhaClient: the local kill-switch
cache, the sliding window of request timestamps, the circuit-breaker
counters, and the response-length history for the zombie heuristic.
Times are modelled as exact rationals (seconds). -/
structure Guard where
  killSwitch : Bool
  timestamps : List ℚ
  failures : ℕ
  trippedUntil : ℚ
  history : List ℕ
deriving DecidableEq

/-- MAX_LOCAL_RPS in the source. -/
def MAX_LOCAL_RPS : ℕ := 5

/-- FAILURE_THRESHOLD in the source. -/
def FAILURE_THRESHOLD : ℕ := 3

/-- COOLDOWN_SECONDS in the source. -/
def COOLDOWN_SECONDS : ℚ := 60

/-- Outcome of the local admission checks at the top of create: the
CircuitBreakerTrippedError (carrying the remaining cooldown), a
BudgetExceededError with its message, or admission. -/
inductive AdmitRes where
  | circuitTripped (remaining : ℚ)
  | budgetExceeded (msg : String)
  | ok
deriving DecidableEq

/-- The local (layer 1) admission logic of create, evaluated at time now:
circuit-breaker pre-check, local kill-switch check, then the 1-second
sliding-window rate limiter (evict from the front while older than 1 s,
reject if 5 entries remain, otherwise append now and allow the call). -/
def admitLocal (g : Guard) (now : ℚ) : AdmitRes × Guard :=
  if now < g.trippedUntil then
    (.circuitTripped (g.trippedUntil - now), g)
  else if g.killSwitch then
    (.budgetExceeded "Agent is killed (Local Cache)", g)
  else
    let w := g.timestamps.dropWhile (fun t => t < now - 1)
    if MAX_LOCAL_RPS ≤ w.length then
      (.budgetExceeded "Local Rate Limit Exceeded (5 RPS)", { g with timestamps := w })
    else
      (.ok, { g with timestamps := w ++ [now] })

/-- n admission attempts at the same time now, tracking whether all of them
were admitted. -/
def admitRun (g : Guard) (now : ℚ) : ℕ → Guard × Bool
  | 0 => (g, true)
  | n + 1 =>
    let p := admitRun g now n
    let q := admitLocal p.1 now
    (q.2, p.2 && (q.1 == AdmitRes.ok))

/-- Network-level outcome of one dispatched heartbeat report: an HTTP
response with a status code, a transport failure (the httpx.RequestError or
httpx.HTTPError branch), or any other exception (the final except branch,
logged and swallowed). -/
inductive HbNet where
  | http (code : ℕ)
  | transportErr
  | otherErr

/-- State transition of the dispatcher send-heartbeat coroutine upon
completion at time now: 200/402 reset the failure counter, 402 additionally
sets the local kill switch; a transport failure increments the counter and
opens the circuit for 60 s once it reaches 3; any other exception changes
nothing. -/
def sendHeartbeat (g : Guard) (res : HbNet) (now : ℚ) : Guard :=
  match res with
  | .http code =>
    let g1 := if code = 200 ∨ code = 402 then { g with failures := 0 } else g
    if code = 402 then { g1 with killSwitch := true } else g1
  | .transportErr =>
    let f := g.failures + 1
    if FAILURE_THRESHOLD ≤ f then
      { g with failures := f, trippedUntil := now + COOLDOWN_SECONDS }
    else
      { g with failures := f }
  | .otherErr => g

/-! ## Zombie heuristic (wrapper.py, the zombie-status check and the
response-history update).  The source compares the population standard
deviation (variance ** 0.5) with 5.0; over the exact rationals this is
equivalent to comparing the population variance with 25. -/

/-- Arithmetic mean of the recorded response lengths. -/
def popMean (h : List ℕ) : ℚ := (h.map (fun x => (x : ℚ))).sum / h.length

/-- Population variance of the recorded response lengths. -/
def popVar (h : List ℕ) : ℚ :=
  (h.map (fun x => ((x : ℚ) - popMean h) ^ 2)).sum / h.length

/-- The zombie check: at least 5 samples whose length variance is below
5.0 squared. -/
def checkZombie (h : List ℕ) : Bool :=
  if 5 ≤ h.length then decide (popVar h < 25) else false

/-- The response-history update: append the new response length, then trim
to the last 10 entries (oldest dropped first). -/
def updateHistory (h : List ℕ) (respLen : ℕ) : List ℕ :=
  let h' := h ++ [respLen]
  if 10 < h'.length then h'.drop 1 else h'

/-- A freshly constructed AiyodhaClient: kill switch off, no timestamps, no
failures, breaker closed, empty history. -/
def guard0 : Guard :=
  { killSwitch := false, timestamps := [], failures := 0, trippedUntil := 0, history := [] }

end Aiyodha

namespace Aiyodha

/-! ## Helper lemmas -/

/-- Success path of the heartbeat critical section. -/
theorem hb_success (st : Ledger) (bal cost : ℚ)
    (hb : st.balance = some bal) (hk : st.killed ≠ some "true") (hc : ¬ bal < cost) :
    heartbeat st cost false =
      (.ok (fadd bal (-cost)),
       { st with balance := some (fadd bal (-cost)), spent := fadd st.spent cost }) := by
  rcases st with ⟨b, sp, k, br, z⟩
  simp only at hb hk
  subst hb
  simp [heartbeat, beq_eq_false_iff_ne.mpr hk, hc]

/-- Unknown-agent path of the heartbeat critical section. -/
theorem hb_notFound (st : Ledger) (cost : ℚ) (iz : Bool) (hb : st.balance = none) :
    heartbeat st cost iz = (.notFound, st) := by
  rcases st with ⟨b, sp, k, br, z⟩
  simp only at hb
  subst hb
  simp [heartbeat]

/-- Killed path of the heartbeat critical section. -/
theorem hb_killed (st : Ledger) (bal : ℚ) (cost : ℚ) (iz : Bool)
    (hb : st.balance = some bal) (hk : st.killed = some "true") :
    heartbeat st cost iz = (.killed, { st with breaches := st.breaches + 1 }) := by
  rcases st with ⟨b, sp, k, br, z⟩
  simp only at hb hk
  subst hb
  simp [heartbeat, hk]

/-- Zombie path of the heartbeat critical section. -/
theorem hb_zombie (st : Ledger) (bal : ℚ) (cost : ℚ)
    (hb : st.balance = some bal) (hk : st.killed ≠ some "true") :
    heartbeat st cost true =
      (.zombie, { st with zombies := st.zombies + 1, killed := some "true" }) := by
  rcases st with ⟨b, sp, k, br, z⟩
  simp only at hb hk
  subst hb
  simp [heartbeat, beq_eq_false_iff_ne.mpr hk]

/-- Insufficient-budget path of the heartbeat critical section. -/
theorem hb_insufficient (st : Ledger) (bal cost : ℚ)
    (hb : st.balance = some bal) (hk : st.killed ≠ some "true") (hc : bal < cost) :
    heartbeat st cost false = (.insufficient, { st with breaches := st.breaches + 1 }) := by
  rcases st with ⟨b, sp, k, br, z⟩
  simp only at hb hk
  subst hb
  simp [heartbeat, beq_eq_false_iff_ne.mpr hk, hc]

/-! ## Claims -/

/-- C1 (corrected).  For every heartbeat on an existing, not-killed agent
with balance at least cost (is_zombie false), the engine deducts the
binary64 rounding of cost from balance, adds the rounding to spent, and
answers ok with the new balance; the five checks run in source order
(missing record, then killed, then zombie, then budget, then deduct); and
balance + spent is preserved whenever the two roundings are exact.  The
unconditional preservation stated by the claim fails in the code (see the
counterexample). -/
theorem claim1_thm :
    (∀ (st : Ledger) (bal cost : ℚ),
      st.balance = some bal → st.killed ≠ some "true" → ¬ bal < cost →
      heartbeat st cost false =
        (.ok (fadd bal (-cost)),
         { st with balance := some (fadd bal (-cost)), spent := fadd st.spent cost })) ∧
    (∀ (st : Ledger) (cost : ℚ) (iz : Bool),
      st.balance = none → heartbeat st cost iz = (.notFound, st)) ∧
    (∀ (st : Ledger) (bal cost : ℚ) (iz : Bool),
      st.balance = some bal → st.killed = some "true" →
      heartbeat st cost iz = (.killed, { st with breaches := st.breaches + 1 })) ∧
    (∀ (st : Ledger) (bal cost : ℚ),
      st.balance = some bal → st.killed ≠ some "true" →
      heartbeat st cost true =
        (.zombie, { st with zombies := st.zombies + 1, killed := some "true" })) ∧
    (∀ (st : Ledger) (bal cost : ℚ),
      st.balance = some bal → st.killed ≠ some "true" → bal < cost →
      heartbeat st cost false = (.insufficient, { st with breaches := st.breaches + 1 })) ∧
    (∀ (bal sp cost : ℚ),
      fadd bal (-cost) = bal - cost → fadd sp cost = sp + cost →
      fadd bal (-cost) + fadd sp cost = bal + sp) :=
  ⟨hb_success, hb_notFound, hb_killed, hb_zombie, hb_insufficient,
   fun _ _ _ h1 h2 => by rw [h1, h2]; ring⟩

/-- C1 witness: the seeded agent heartbeated at the exactly representable
cost 1.0 is charged exactly, and the invariant is intact. -/
theorem claim1_wit :
    heartbeat seeded 1 false = (.ok 99, { seeded with balance := some 99, spent := 1 }) ∧
    (99 : ℚ) + 1 = 100 := by
  have h := claim1_thm.1 seeded 100 1 rfl (by decide) (by norm_num)
  rw [show fadd 100 (-1) = 99 by with_unfolding_all decide,
      show fadd seeded.spent 1 = 1 by with_unfolding_all decide] at h
  exact ⟨h, by norm_num⟩

/-- C1 counterexample: after three heartbeats of cost 0.05 against the
seeded agent, the Python-float ledger has balance + spent different from
the initial budget 100.0 (it is 100.00000000000001), so the invariant
claimed unconditionally does not hold in the code. -/
theorem claim1_cex :
    (hbRun 3).1.balance = some ((7026319106139751 : ℚ) / 70368744177664) ∧
    (hbRun 3).1.spent = (1351079888211149 : ℚ) / 9007199254740992 ∧
    (7026319106139751 : ℚ) / 70368744177664 + (1351079888211149 : ℚ) / 9007199254740992 ≠ 100 := by
  refine ⟨by with_unfolding_all decide, by with_unfolding_all decide, by norm_num⟩

/-- C2 (confirmed).  A zombie heartbeat on an existing, not-yet-killed agent
increments the zombies counter, sets the kill flag, fails with the 402
zombie reason, and deducts nothing; once the flag is set (by zombie
detection or by the admin kill switch), every later heartbeat fails with
the 402 killed reason and increments the breaches counter, regardless of
cost and balance, leaving balance and spent unchanged. -/
theorem claim2_thm :
    (∀ (st : Ledger) (bal cost : ℚ),
      st.balance = some bal → st.killed ≠ some "true" →
      heartbeat st cost true =
        (.zombie, { st with zombies := st.zombies + 1, killed := some "true" })) ∧
    (∀ (st : Ledger) (bal cost : ℚ) (iz : Bool),
      st.balance = some bal → st.killed = some "true" →
      heartbeat st cost iz = (.killed, { st with breaches := st.breaches + 1 })) ∧
    (∀ (st : Ledger) (bal : ℚ), st.balance = some bal →
      killSwitch st = (.killed, { st with killed := some "true" })) ∧
    (∀ (st : Ledger) (bal cost c2 : ℚ) (iz : Bool),
      st.balance = some bal → st.killed ≠ some "true" →
      heartbeat (heartbeat st cost true).2 c2 iz =
        (.killed, { st with zombies := st.zombies + 1, killed := some "true",
                            breaches := st.breaches + 1 })) ∧
    (∀ (st : Ledger) (bal cost : ℚ) (iz : Bool),
      st.balance = some bal →
      heartbeat (killSwitch st).2 cost iz =
        (.killed, { st with killed := some "true", breaches := st.breaches + 1 })) := by
  have hks : ∀ (st : Ledger) (bal : ℚ), st.balance = some bal →
      killSwitch st = (.killed, { st with killed := some "true" }) := by
    intro st bal hb
    rcases st with ⟨b, sp, k, br, z⟩
    simp only at hb
    subst hb
    simp [killSwitch]
  refine ⟨fun st bal cost hb hk => hb_zombie st bal cost hb hk, hb_killed, hks, ?_, ?_⟩
  · intro st bal cost c2 iz hb hk
    rw [hb_zombie st bal cost hb hk]
    exact hb_killed _ bal c2 iz (by rcases st with ⟨b, sp, k, br, z⟩; simpa using hb) rfl
  · intro st bal cost iz hb
    rw [hks st bal hb]
    exact hb_killed _ bal cost iz (by rcases st with ⟨b, sp, k, br, z⟩; simpa using hb) rfl

/-- C2 witness: a zombie heartbeat against the seeded agent followed by a
plain heartbeat produces the killed rejection with one breach recorded and
the ledger amounts untouched. -/
theorem claim2_wit :
    heartbeat (heartbeat seeded 1 true).2 1 false =
      (.killed,
       { seeded with
          zombies := seeded.zombies + 1, killed := some "true", breaches := seeded.breaches + 1 }) :=
  claim2_thm.2.2.2.1 seeded 100 1 1 false rfl (by decide)

/-- C10 (corrected).  The heartbeat endpoint never validates the sign of
cost: for every existing, non-killed agent with nonnegative balance and any
negative cost, the budget check passes and the call succeeds, setting
balance to the binary64 rounding of balance - cost and spent to the rounding
of spent + cost; at cost -10.0 the seeded agent ends with balance 110.0 and
spent -10.0, so spent is not monotone and the public endpoint tops budgets
up.  The increase equals the absolute value of cost only up to binary64
rounding (see the counterexample). -/
theorem claim10_thm :
    (∀ (st : Ledger) (bal cost : ℚ),
      st.balance = some bal → st.killed ≠ some "true" → 0 ≤ bal → cost < 0 →
      heartbeat st cost false =
        (.ok (fadd bal (-cost)),
         { st with balance := some (fadd bal (-cost)), spent := fadd st.spent cost })) ∧
    (heartbeat seeded (-10) false = (.ok 110, { seeded with balance := some 110, spent := -10 }) ∧
      (100 : ℚ) < 110 ∧ (-10 : ℚ) < 0) := by
  constructor
  · intro st bal cost hb hk hbal hcost
    exact hb_success st bal cost hb hk (not_lt.mpr (le_of_lt (lt_of_lt_of_le hcost hbal)))
  · refine ⟨by with_unfolding_all decide, by norm_num, by norm_num⟩

/-- C10 witness: the negative-cost success path applied to the seeded agent
at cost -10.0. -/
theorem claim10_wit :
    heartbeat seeded (-10) false =
      (.ok (fadd 100 (-(-10))),
       { seeded with balance := some (fadd 100 (-(-10))), spent := fadd seeded.spent (-10) }) :=
  claim10_thm.1 seeded 100 (-10) rfl (by decide) (by norm_num) (by norm_num)

set_option maxRecDepth 100000 in
/-- C10 counterexample: at cost -1e-20 (a negative cost below half an ulp of
100.0) the heartbeat succeeds but the balance is completely unchanged, so
the heartbeat does not increase balance by the absolute value of cost. -/
theorem claim10_cex :
    heartbeat seeded (-(6646139978924579 / 664613997892457936451903530140172288 : ℚ)) false =
      (.ok 100,
       { seeded with
          balance := some 100
          spent := -(6646139978924579 / 664613997892457936451903530140172288 : ℚ) }) ∧
    (0 : ℚ) < 6646139978924579 / 664613997892457936451903530140172288 := by
  refine ⟨by with_unfolding_all decide, by norm_num⟩


/-- C3 (corrected).  N heartbeats of the same cost c serialized by the
per-agent lock, against a fresh agent with balance B >= N*c, are all
applied with no lost update: the final ledger is the N-fold iterate, and
whenever every intermediate binary64 rounding is exact the final balance is
exactly B - N*c and spent exactly N*c.  The unconditional exact equality
stated by the claim fails in the code for inexact costs such as 0.05 (see
the counterexample). -/
theorem claim3_thm (B c : ℚ) (n : ℕ) (hc : 0 ≤ c)
    (hex : ∀ k : ℕ, k < n →
      fadd (B - (k : ℚ) * c) (-c) = B - ((k : ℚ) + 1) * c ∧
      fadd ((k : ℚ) * c) c = ((k : ℚ) + 1) * c)
    (hB : (n : ℚ) * c ≤ B) :
    hbIterC c (agent0 B) n =
      { balance := some (B - (n : ℚ) * c), spent := (n : ℚ) * c,
        killed := some "false", breaches := 0, zombies := 0 } := by
  induction n with
  | zero => simp [hbIterC, agent0]
  | succ m ih =>
    have hBm : (m : ℚ) * c ≤ B := by
      have h1 : (m : ℚ) * c ≤ ((m : ℚ) + 1) * c := by nlinarith
      have h2 : ((m + 1 : ℕ) : ℚ) * c ≤ B := hB
      push_cast at h2
      linarith
    have hmain := ih (fun k hk => hex k (Nat.lt_succ_of_lt hk)) hBm
    have hbudget : ¬ (B - (m : ℚ) * c < c) := by
      have h2 : ((m + 1 : ℕ) : ℚ) * c ≤ B := hB
      push_cast at h2
      nlinarith
    show (heartbeat (hbIterC c (agent0 B) m) c false).2 = _
    rw [hmain, hb_success _ (B - (m : ℚ) * c) c rfl (by simp) hbudget]
    have e1 := (hex m (Nat.lt_succ_self m)).1
    have e2 := (hex m (Nat.lt_succ_self m)).2
    simp only
    rw [e1, e2]
    push_cast
    ring_nf

/-- C3 witness: three serialized heartbeats of the exactly representable
cost 0.25 against balance 100.0 leave balance 99.25 and spent 0.75. -/
theorem claim3_wit :
    hbIterC (1/4) (agent0 100) 3 =
      { balance := some (100 - ((3 : ℕ) : ℚ) * (1/4)), spent := ((3 : ℕ) : ℚ) * (1/4),
        killed := some "false", breaches := 0, zombies := 0 } :=
  claim3_thm 100 (1/4) 3 (by norm_num) (by with_unfolding_all decide) (by push_cast; norm_num)

/-- C3 counterexample: three serialized heartbeats of cost 0.05 against
balance 100.0 leave the Python-float balance 99.85000000000001, which is
neither 100 - 3*cost computed exactly over the parsed cost nor the real
number 99.85. -/
theorem claim3_cex :
    (hbIterC d005 (agent0 100) 3).balance = some ((7026319106139751 : ℚ) / 70368744177664) ∧
    (7026319106139751 : ℚ) / 70368744177664 ≠ 100 - ((3 : ℕ) : ℚ) * d005 ∧
    (7026319106139751 : ℚ) / 70368744177664 ≠ 1997 / 20 := by
  refine ⟨by with_unfolding_all decide, ?_, by norm_num⟩
  rw [d005]
  norm_num

/-- C4 (confirmed).  Local admission: the circuit-breaker pre-check, the
local kill-switch check and the 1-second sliding-window rate limiter run
in that order, each short-circuiting with its own failure; rejection by the
rate limiter happens exactly when 5 entries survive eviction; and from a
fresh guard the 6th attempt within the same second is rejected while an
attempt after the window has slid past one second is admitted again. -/
theorem claim4_thm :
    (∀ (g : Guard) (now : ℚ), now < g.trippedUntil →
      admitLocal g now = (.circuitTripped (g.trippedUntil - now), g)) ∧
    (∀ (g : Guard) (now : ℚ), ¬ now < g.trippedUntil → g.killSwitch = true →
      admitLocal g now = (.budgetExceeded "Agent is killed (Local Cache)", g)) ∧
    (∀ (g : Guard) (now : ℚ), ¬ now < g.trippedUntil → g.killSwitch = false →
      MAX_LOCAL_RPS ≤ (g.timestamps.dropWhile (fun t => t < now - 1)).length →
      admitLocal g now =
        (.budgetExceeded "Local Rate Limit Exceeded (5 RPS)",
         { g with timestamps := g.timestamps.dropWhile (fun t => t < now - 1) })) ∧
    (∀ (g : Guard) (now : ℚ), ¬ now < g.trippedUntil → g.killSwitch = false →
      (g.timestamps.dropWhile (fun t => t < now - 1)).length < MAX_LOCAL_RPS →
      admitLocal g now =
        (.ok, { g with timestamps := g.timestamps.dropWhile (fun t => t < now - 1) ++ [now] })) ∧
    ((admitRun guard0 0 5).2 = true ∧
      (admitLocal (admitRun guard0 0 5).1 0).1 = .budgetExceeded "Local Rate Limit Exceeded (5 RPS)" ∧
      (admitLocal (admitRun guard0 0 5).1 (3/2)).1 = .ok) := by
  refine ⟨?_, ?_, ?_, ?_, by with_unfolding_all decide, by with_unfolding_all decide,
    by with_unfolding_all decide⟩
  · intro g now h
    simp [admitLocal, h]
  · intro g now h1 h2
    simp [admitLocal, h1, h2]
  · intro g now h1 h2 h3
    simp [admitLocal, h1, h2, h3]
  · intro g now h1 h2 h3
    simp [admitLocal, h1, h2, Nat.not_le.mpr h3]

/-- C4 witness: with the breaker open until time 1, admission at time 0 is
rejected with the remaining cooldown. -/
theorem claim4_wit :
    admitLocal { killSwitch := false, timestamps := [], failures := 0, trippedUntil := 1, history := [] } 0 =
      (.circuitTripped (1 - 0),
       { killSwitch := false, timestamps := [], failures := 0, trippedUntil := 1, history := [] }) :=
  claim4_thm.1 _ 0 (by norm_num)

/-- C5 (confirmed).  Dispatcher transitions: an HTTP 200 or 402 resets the
consecutive-failure counter; 402 additionally sets the local kill switch; a
transport failure increments the counter and, on reaching 3, opens the
circuit until now + 60, after which every admission attempt before that
time fails with the circuit-tripped error and attempts from that time on
are never rejected by the breaker; any other exception leaves the guard
untouched (logged and swallowed, never raised). -/
theorem claim5_thm :
    (∀ (g : Guard) (now : ℚ) (code : ℕ), code = 200 ∨ code = 402 →
      (sendHeartbeat g (.http code) now).failures = 0) ∧
    (∀ (g : Guard) (now : ℚ),
      sendHeartbeat g (.http 402) now = { g with failures := 0, killSwitch := true }) ∧
    (∀ (g : Guard) (now : ℚ),
      (sendHeartbeat g .transportErr now).failures = g.failures + 1) ∧
    (∀ (g : Guard) (now : ℚ), g.failures = 2 →
      sendHeartbeat g .transportErr now = { g with failures := 3, trippedUntil := now + 60 }) ∧
    (∀ (g : Guard) (now t : ℚ), g.failures = 2 → t < now + 60 →
      (admitLocal (sendHeartbeat g .transportErr now) t).1 = .circuitTripped (now + 60 - t)) ∧
    (∀ (g : Guard) (now t r : ℚ), g.failures = 2 → ¬ t < now + 60 →
      (admitLocal (sendHeartbeat g .transportErr now) t).1 ≠ .circuitTripped r) ∧
    (∀ (g : Guard) (now : ℚ), sendHeartbeat g .otherErr now = g) := by
  have h402 : ∀ (g : Guard) (now : ℚ),
      sendHeartbeat g (.http 402) now = { g with failures := 0, killSwitch := true } := by
    intro g now
    simp [sendHeartbeat]
  have htrip : ∀ (g : Guard) (now : ℚ), g.failures = 2 →
      sendHeartbeat g .transportErr now = { g with failures := 3, trippedUntil := now + 60 } := by
    intro g now h
    simp [sendHeartbeat, h, FAILURE_THRESHOLD, COOLDOWN_SECONDS]
  refine ⟨?_, h402, ?_, htrip, ?_, ?_, fun g now => rfl⟩
  · intro g now code h
    rcases h with h | h <;> subst h <;> simp [sendHeartbeat]
  · intro g now
    simp only [sendHeartbeat]
    split <;> simp
  · intro g now t h ht
    rw [htrip g now h]
    simp [admitLocal, ht]
  · intro g now t r h ht
    rw [htrip g now h]
    simp only [admitLocal]
    rw [if_neg (by simpa using ht)]
    split
    · simp
    · split <;> simp

/-- C5 witness: a third consecutive transport failure at time 0 opens the
circuit until 60, and admission at time 1 is then rejected with the
remaining cooldown. -/
theorem claim5_wit :
    sendHeartbeat { killSwitch := false, timestamps := [], failures := 2, trippedUntil := 0, history := [] } .transportErr 0 =
      { killSwitch := false, timestamps := [], failures := 3, trippedUntil := 0 + 60, history := [] } ∧
    (admitLocal (sendHeartbeat { killSwitch := false, timestamps := [], failures := 2, trippedUntil := 0, history := [] } .transportErr 0) 1).1 =
      .circuitTripped (0 + 60 - 1) :=
  ⟨claim5_thm.2.2.2.1 _ 0 rfl, claim5_thm.2.2.2.2.1 _ 0 1 rfl (by norm_num)⟩

/-- C7 (code_bug).  The in-memory fallback store does not provide the
semantics of every store method the heartbeat path invokes: the endpoint
calls incr, which MockRedis does not define, so against the fallback the
zombie heartbeat on the seeded agent dies with AttributeError (HTTP 500,
ledger untouched, kill flag never set), while the same request against the
store interface the engine assumes returns the 402 zombie rejection with
the zombies counter incremented and the agent killed. -/
theorem claim7_thm :
    "incr" ∈ heartbeatStoreMethods ∧ "incr" ∉ mockRedisMethods ∧
    heartbeatMock seeded d005 true = (none, seeded) ∧
    heartbeat seeded d005 true =
      (.zombie, { seeded with zombies := 1, killed := some "true" }) := by
  refine ⟨by decide, by decide, by with_unfolding_all decide, by with_unfolding_all decide⟩


/-- If the lock key never becomes free through attempt 501, the spin loop
times out. -/
theorem spinLoop_none (free : ℕ → Bool) :
    ∀ (fuel k : ℕ), k ≤ 501 → (∀ j, j ≤ 501 → free j = false) → 502 ≤ fuel + k →
      spinLoop free fuel k = none := by
  intro fuel
  induction fuel with
  | zero => intro k _ _ _; rfl
  | succ f ih =>
    intro k hk hfree _
    rw [spinLoop, hfree k hk]
    simp only [Bool.false_eq_true, if_false]
    by_cases h5 : 500 < k
    · simp [h5]
    · rw [if_neg h5]
      exact ih (k + 1) (by omega) hfree (by omega)

/-- The spin loop acquires at the first attempt whose setnx succeeds, when
that happens within the timeout. -/
theorem spinLoop_first (free : ℕ → Bool) :
    ∀ (fuel k k0 : ℕ), k ≤ k0 → k0 ≤ 501 → free k0 = true →
      (∀ j, k ≤ j → j < k0 → free j = false) → 502 ≤ fuel + k →
      spinLoop free fuel k = some k0 := by
  intro fuel
  induction fuel with
  | zero => intro k k0 hk hk0 _ _ htot; exact absurd htot (by omega)
  | succ f ih =>
    intro k k0 hk hk0 hfree hbelow htot
    by_cases hkk : k = k0
    · subst hkk
      rw [spinLoop, hfree]
      simp
    · have hklt : k < k0 := by omega
      rw [spinLoop, hbelow k le_rfl hklt]
      simp only [Bool.false_eq_true, if_false]
      rw [if_neg (by omega)]
      exact ih (k + 1) k0 (by omega) hk0 hfree (fun j hj1 hj2 => hbelow j (by omega) hj2) (by omega)

/-- C8 (confirmed).  Lock protocol: acquisition repeatedly attempts setnx on
the lock key (one attempt per 10 ms), acquiring at the first free attempt
and setting an expiry, and raises ServiceBusy once the 5-second timeout has
passed with no success; on the ServiceBusy path the ledger is untouched and
no release happens; once acquired, the lock is released (key deleted)
exactly once on every exit path of the critical section, whatever its
outcome. -/
theorem claim8_thm :
    (∀ free : ℕ → Bool, (∀ j, j ≤ 501 → free j = false) → spinAcquire free = none) ∧
    (∀ (free : ℕ → Bool) (k0 : ℕ), k0 ≤ 501 → free k0 = true →
      (∀ j, j < k0 → free j = false) → spinAcquire free = some k0) ∧
    (∀ (free : ℕ → Bool) (st : Ledger) (cost : ℚ) (iz : Bool), spinAcquire free = none →
      runHeartbeat free st cost iz =
        { result := none, ledger := st, expirySet := false, deletes := 0 }) ∧
    (∀ (free : ℕ → Bool) (st : Ledger) (cost : ℚ) (iz : Bool) (k : ℕ), spinAcquire free = some k →
      runHeartbeat free st cost iz =
        { result := some (heartbeat st cost iz).1, ledger := (heartbeat st cost iz).2,
          expirySet := true, deletes := 1 }) := by
  refine ⟨?_, ?_, ?_, ?_⟩
  · intro free hfree
    exact spinLoop_none free 502 0 (by omega) hfree (by omega)
  · intro free k0 hk0 hfree hbelow
    exact spinLoop_first free 502 0 k0 (by omega) hk0 hfree (fun j _ hj => hbelow j hj) (by omega)
  · intro free st cost iz h
    rw [runHeartbeat, h]
  · intro free st cost iz k h
    rw [runHeartbeat, h]

/-- C8 witness: with the lock key freed at the fourth attempt, acquisition
succeeds there, and a zombie heartbeat (an HTTPException exit of the
critical section) still releases the lock exactly once with the expiry
set. -/
theorem claim8_wit :
    spinAcquire (fun k => decide (k = 3)) = some 3 ∧
    runHeartbeat (fun k => decide (k = 3)) seeded d005 true =
      { result := some (heartbeat seeded d005 true).1, ledger := (heartbeat seeded d005 true).2,
        expirySet := true, deletes := 1 } := by
  have h := claim8_thm.2.1 (fun k => decide (k = 3)) 3 (by norm_num) (by decide)
    (fun j hj => by simp only [decide_eq_false_iff_not]; omega)
  exact ⟨h, claim8_thm.2.2.2 _ seeded d005 true 3 h⟩

/-- C9 (confirmed).  The zombie heuristic: the check reports a zombie
exactly when the history holds at least 5 samples whose population standard
deviation is strictly below 5.0 (equivalently over exact arithmetic, whose
population variance is below 25); 5 identical lengths always report a
zombie; fewer than 5 samples never do; and the history update keeps the
lengths of the last 10 responses, dropping the oldest first. -/
theorem claim9_thm :
    (∀ h : List ℕ, checkZombie h = true ↔ 5 ≤ h.length ∧ Real.sqrt (popVar h) < 5) ∧
    (∀ n : ℕ, checkZombie (List.replicate 5 n) = true) ∧
    (∀ h : List ℕ, h.length < 5 → checkZombie h = false) ∧
    (∀ (h : List ℕ) (n : ℕ), h.length ≤ 10 →
      (updateHistory h n).length ≤ 10 ∧
      updateHistory h n = if h.length < 10 then h ++ [n] else (h ++ [n]).drop 1) := by
  have hvar : ∀ h : List ℕ, (popVar h < 25 ↔ Real.sqrt (popVar h) < 5) := by
    intro h
    rw [Real.sqrt_lt' (by norm_num : (0 : ℝ) < 5)]
    constructor
    · intro hv
      have : ((popVar h : ℚ) : ℝ) < ((25 : ℚ) : ℝ) := by exact_mod_cast hv
      calc ((popVar h : ℚ) : ℝ) < ((25 : ℚ) : ℝ) := this
        _ = 5 ^ 2 := by norm_num
    · intro hv
      have : ((popVar h : ℚ) : ℝ) < ((25 : ℚ) : ℝ) := by
        calc ((popVar h : ℚ) : ℝ) < 5 ^ 2 := hv
          _ = ((25 : ℚ) : ℝ) := by norm_num
      exact_mod_cast this
  refine ⟨?_, ?_, ?_, ?_⟩
  · intro h
    unfold checkZombie
    by_cases hl : 5 ≤ h.length
    · simp only [hl, if_true, decide_eq_true_eq, true_and]
      exact hvar h
    · simp only [hl, if_false, false_and]
      simp
  · intro n
    have hv : popVar (List.replicate 5 n) = 0 := by
      simp [popVar, popMean]
      ring
    unfold checkZombie
    rw [hv]
    norm_num
  · intro h hl
    unfold checkZombie
    rw [if_neg (by omega)]
  · intro h n hlen
    unfold updateHistory
    by_cases h10 : h.length < 10
    · have hnot : ¬ 10 < (h ++ [n]).length := by
        simp only [List.length_append, List.length_cons, List.length_nil]
        omega
      rw [if_neg hnot, if_pos h10]
      refine ⟨?_, rfl⟩
      simp only [List.length_append, List.length_cons, List.length_nil]
      omega
    · have hlen10 : h.length = 10 := by omega
      have hyes : 10 < (h ++ [n]).length := by
        simp only [List.length_append, List.length_cons, List.length_nil]
        omega
      rw [if_pos hyes, if_neg h10]
      refine ⟨?_, rfl⟩
      simp only [List.length_drop, List.length_append, List.length_cons, List.length_nil]
      omega

/-- C9 witness: five identical response lengths report a zombie; a single
sample never does. -/
theorem claim9_wit :
    checkZombie (List.replicate 5 7) = true ∧ checkZombie [3] = false :=
  ⟨claim9_thm.2.1 7, claim9_thm.2.2.1 [3] (by norm_num)⟩


/-- Splitting a heartbeat run at an intermediate point. -/
theorem runFrom_add (p : Ledger × Bool) (m n : ℕ) :
    runFrom p (m + n) = runFrom (runFrom p m) n := by
  induction n with
  | zero => rfl
  | succ k ih => rw [Nat.add_succ, runFrom, ih, runFrom]

/-- Restarting the seeded run from a checkpoint. -/
theorem hbRun_add (m n : ℕ) : hbRun (m + n) = runFrom (hbRun m) n :=
  runFrom_add (seeded, true) m n

set_option maxRecDepth 100000 in
/-- Checkpoint: the ledger after 100 heartbeats of cost 0.05 against the
seeded agent, every one of them successful. -/
theorem hbChk1 :
    hbRun 100 = ({ balance := some ((1671257674219525 : ℚ) / 17592186044416), spent := (5629499534213109 : ℚ) / 1125899906842624, killed := some "false", breaches := 0, zombies := 0 }, true) := by
  with_unfolding_all decide

set_option maxRecDepth 100000 in
/-- Checkpoint: the ledger after 200 heartbeats of cost 0.05 against the
seeded agent, every one of them successful. -/
theorem hbChk2 :
    hbRun 200 = ({ balance := some ((791648371998725 : ℚ) / 8796093022208), spent := (1407374883553281 : ℚ) / 140737488355328, killed := some "false", breaches := 0, zombies := 0 }, true) := by
  rw [show (200 : ℕ) = 100 + 100 by norm_num, hbRun_add, hbChk1]
  with_unfolding_all decide

set_option maxRecDepth 100000 in
/-- Checkpoint: the ledger after 300 heartbeats of cost 0.05 against the
seeded agent, every one of them successful. -/
theorem hbChk3 :
    hbRun 300 = ({ balance := some ((1495335813775375 : ℚ) / 17592186044416), spent := (2111062325329931 : ℚ) / 140737488355328, killed := some "false", breaches := 0, zombies := 0 }, true) := by
  rw [show (300 : ℕ) = 200 + 100 by norm_num, hbRun_add, hbChk2]
  with_unfolding_all decide

set_option maxRecDepth 100000 in
/-- Checkpoint: the ledger after 400 heartbeats of cost 0.05 against the
seeded agent, every one of them successful. -/
theorem hbChk4 :
    hbRun 400 = ({ balance := some ((351843720888325 : ℚ) / 4398046511104), spent := (2814749767106581 : ℚ) / 140737488355328, killed := some "false", breaches := 0, zombies := 0 }, true) := by
  rw [show (400 : ℕ) = 300 + 100 by norm_num, hbRun_add, hbChk3]
  with_unfolding_all decide

set_option maxRecDepth 100000 in
/-- Checkpoint: the ledger after 500 heartbeats of cost 0.05 against the
seeded agent, every one of them successful. -/
theorem hbChk5 :
    hbRun 500 = ({ balance := some ((1319413953331225 : ℚ) / 17592186044416), spent := (3518437208883231 : ℚ) / 140737488355328, killed := some "false", breaches := 0, zombies := 0 }, true) := by
  rw [show (500 : ℕ) = 400 + 100 by norm_num, hbRun_add, hbChk4]
  with_unfolding_all decide

set_option maxRecDepth 100000 in
/-- Checkpoint: the ledger after 600 heartbeats of cost 0.05 against the
seeded agent, every one of them successful. -/
theorem hbChk6 :
    hbRun 600 = ({ balance := some ((615726511554575 : ℚ) / 8796093022208), spent := (4222124650659881 : ℚ) / 140737488355328, killed := some "false", breaches := 0, zombies := 0 }, true) := by
  rw [show (600 : ℕ) = 500 + 100 by norm_num, hbRun_add, hbChk5]
  with_unfolding_all decide

set_option maxRecDepth 100000 in
/-- Checkpoint: the ledger after 700 heartbeats of cost 0.05 against the
seeded agent, every one of them successful. -/
theorem hbChk7 :
    hbRun 700 = ({ balance := some ((1143492092887075 : ℚ) / 17592186044416), spent := (4925812092436501 : ℚ) / 140737488355328, killed := some "false", breaches := 0, zombies := 0 }, true) := by
  rw [show (700 : ℕ) = 600 + 100 by norm_num, hbRun_add, hbChk6]
  with_unfolding_all decide

set_option maxRecDepth 100000 in
/-- Checkpoint: the ledger after 800 heartbeats of cost 0.05 against the
seeded agent, every one of them successful. -/
theorem hbChk8 :
    hbRun 800 = ({ balance := some ((131941395333125 : ℚ) / 2199023255552), spent := (5629499534213101 : ℚ) / 140737488355328, killed := some "false", breaches := 0, zombies := 0 }, true) := by
  rw [show (800 : ℕ) = 700 + 100 by norm_num, hbRun_add, hbChk7]
  with_unfolding_all decide

set_option maxRecDepth 100000 in
/-- Checkpoint: the ledger after 900 heartbeats of cost 0.05 against the
seeded agent, every one of them successful. -/
theorem hbChk9 :
    hbRun 900 = ({ balance := some ((967570232442925 : ℚ) / 17592186044416), spent := (6333186975989701 : ℚ) / 140737488355328, killed := some "false", breaches := 0, zombies := 0 }, true) := by
  rw [show (900 : ℕ) = 800 + 100 by norm_num, hbRun_add, hbChk8]
  with_unfolding_all decide

set_option maxRecDepth 100000 in
/-- Checkpoint: the ledger after 1000 heartbeats of cost 0.05 against the
seeded agent, every one of them successful. -/
theorem hbChk10 :
    hbRun 1000 = ({ balance := some ((439804651110425 : ℚ) / 8796093022208), spent := (7036874417766301 : ℚ) / 140737488355328, killed := some "false", breaches := 0, zombies := 0 }, true) := by
  rw [show (1000 : ℕ) = 900 + 100 by norm_num, hbRun_add, hbChk9]
  with_unfolding_all decide

set_option maxRecDepth 100000 in
/-- Checkpoint: the ledger after 1100 heartbeats of cost 0.05 against the
seeded agent, every one of them successful. -/
theorem hbChk11 :
    hbRun 1100 = ({ balance := some ((791648371998775 : ℚ) / 17592186044416), spent := (7740561859542901 : ℚ) / 140737488355328, killed := some "false", breaches := 0, zombies := 0 }, true) := by
  rw [show (1100 : ℕ) = 1000 + 100 by norm_num, hbRun_add, hbChk10]
  with_unfolding_all decide

set_option maxRecDepth 100000 in
/-- Checkpoint: the ledger after 1200 heartbeats of cost 0.05 against the
seeded agent, every one of them successful. -/
theorem hbChk12 :
    hbRun 1200 = ({ balance := some ((175921860444175 : ℚ) / 4398046511104), spent := (8444249301319501 : ℚ) / 140737488355328, killed := some "false", breaches := 0, zombies := 0 }, true) := by
  rw [show (1200 : ℕ) = 1100 + 100 by norm_num, hbRun_add, hbChk11]
  with_unfolding_all decide

set_option maxRecDepth 100000 in
/-- Checkpoint: the ledger after 1300 heartbeats of cost 0.05 against the
seeded agent, every one of them successful. -/
theorem hbChk13 :
    hbRun 1300 = ({ balance := some ((615726511554625 : ℚ) / 17592186044416), spent := (4573968371548051 : ℚ) / 70368744177664, killed := some "false", breaches := 0, zombies := 0 }, true) := by
  rw [show (1300 : ℕ) = 1200 + 100 by norm_num, hbRun_add, hbChk12]
  with_unfolding_all decide

set_option maxRecDepth 100000 in
/-- Checkpoint: the ledger after 1400 heartbeats of cost 0.05 against the
seeded agent, every one of them successful. -/
theorem hbChk14 :
    hbRun 1400 = ({ balance := some ((1055531162665095 : ℚ) / 35184372088832), spent := (4925812092436351 : ℚ) / 70368744177664, killed := some "false", breaches := 0, zombies := 0 }, true) := by
  rw [show (1400 : ℕ) = 1300 + 100 by norm_num, hbRun_add, hbChk13]
  with_unfolding_all decide

set_option maxRecDepth 100000 in
/-- Checkpoint: the ledger after 1500 heartbeats of cost 0.05 against the
seeded agent, every one of them successful. -/
theorem hbChk15 :
    hbRun 1500 = ({ balance := some ((1759218604441865 : ℚ) / 70368744177664), spent := (5277655813324651 : ℚ) / 70368744177664, killed := some "false", breaches := 0, zombies := 0 }, true) := by
  rw [show (1500 : ℕ) = 1400 + 100 by norm_num, hbRun_add, hbChk14]
  with_unfolding_all decide

set_option maxRecDepth 100000 in
/-- Checkpoint: the ledger after 1600 heartbeats of cost 0.05 against the
seeded agent, every one of them successful. -/
theorem hbChk16 :
    hbRun 1600 = ({ balance := some ((351843720888385 : ℚ) / 17592186044416), spent := (5629499534212951 : ℚ) / 70368744177664, killed := some "false", breaches := 0, zombies := 0 }, true) := by
  rw [show (1600 : ℕ) = 1500 + 100 by norm_num, hbRun_add, hbChk15]
  with_unfolding_all decide

set_option maxRecDepth 100000 in
/-- Checkpoint: the ledger after 1700 heartbeats of cost 0.05 against the
seeded agent, every one of them successful. -/
theorem hbChk17 :
    hbRun 1700 = ({ balance := some ((1055531162665215 : ℚ) / 70368744177664), spent := (5981343255101251 : ℚ) / 70368744177664, killed := some "false", breaches := 0, zombies := 0 }, true) := by
  rw [show (1700 : ℕ) = 1600 + 100 by norm_num, hbRun_add, hbChk16]
  with_unfolding_all decide

set_option maxRecDepth 100000 in
/-- Checkpoint: the ledger after 1800 heartbeats of cost 0.05 against the
seeded agent, every one of them successful. -/
theorem hbChk18 :
    hbRun 1800 = ({ balance := some ((351843720888445 : ℚ) / 35184372088832), spent := (6333186975989551 : ℚ) / 70368744177664, killed := some "false", breaches := 0, zombies := 0 }, true) := by
  rw [show (1800 : ℕ) = 1700 + 100 by norm_num, hbRun_add, hbChk17]
  with_unfolding_all decide

set_option maxRecDepth 100000 in
/-- Checkpoint: the ledger after 1900 heartbeats of cost 0.05 against the
seeded agent, every one of them successful. -/
theorem hbChk19 :
    hbRun 1900 = ({ balance := some ((1407374883554275 : ℚ) / 281474976710656), spent := (6685030696877851 : ℚ) / 70368744177664, killed := some "false", breaches := 0, zombies := 0 }, true) := by
  rw [show (1900 : ℕ) = 1800 + 100 by norm_num, hbRun_add, hbChk18]
  with_unfolding_all decide

set_option maxRecDepth 100000 in
/-- Checkpoint: the ledger after 2000 heartbeats of cost 0.05 against the
seeded agent, every one of them successful. -/
theorem hbChk20 :
    hbRun 2000 = ({ balance := some ((255397 : ℚ) / 72057594037927936), spent := (7036874417766151 : ℚ) / 70368744177664, killed := some "false", breaches := 0, zombies := 0 }, true) := by
  rw [show (2000 : ℕ) = 1900 + 100 by norm_num, hbRun_add, hbChk19]
  with_unfolding_all decide

set_option maxRecDepth 100000 in
/-- C6 (corrected).  Against the seeded agent (balance 100.0) heartbeats of
cost 0.05 succeed for exactly 2000 calls, and the 2001st fails with the 402
insufficient-budget rejection, incrementing the breaches counter by exactly
one; but because the arithmetic is Python-float arithmetic, the balance
after the 2000 successes is the residue 255397/2^56 (about 3.54e-12), a
positive value below 0.05, not exactly 0.0 as the claim states (see the
counterexample). -/
theorem claim6_thm :
    hbRun 2000 = ({ balance := some ((255397 : ℚ) / 72057594037927936), spent := (7036874417766151 : ℚ) / 70368744177664, killed := some "false", breaches := 0, zombies := 0 }, true) ∧
    heartbeat { balance := some ((255397 : ℚ) / 72057594037927936), spent := (7036874417766151 : ℚ) / 70368744177664, killed := some "false", breaches := 0, zombies := 0 } d005 false = (.insufficient, { balance := some ((255397 : ℚ) / 72057594037927936), spent := (7036874417766151 : ℚ) / 70368744177664, killed := some "false", breaches := 1, zombies := 0 }) ∧
    hbRun 2001 = ({ balance := some ((255397 : ℚ) / 72057594037927936), spent := (7036874417766151 : ℚ) / 70368744177664, killed := some "false", breaches := 1, zombies := 0 }, false) ∧
    (255397 : ℚ) / 72057594037927936 < d005 ∧ (0 : ℚ) < (255397 : ℚ) / 72057594037927936 := by
  refine ⟨hbChk20, by with_unfolding_all decide, ?_, by rw [d005]; norm_num, by norm_num⟩
  rw [show (2001 : ℕ) = 2000 + 1 by norm_num, hbRun_add, hbChk20]
  with_unfolding_all decide

set_option maxRecDepth 100000 in
/-- C6 counterexample: after the 2000 successful heartbeats the stored
balance is not exactly 0.0 (it is the float residue 255397/2^56). -/
theorem claim6_cex : (hbRun 2000).1.balance ≠ some 0 := by
  rw [hbChk20]
  simp only [ne_eq, Option.some.injEq]
  norm_num

end Aiyodha
